import Mathlib

/-
Shallow embedding of the inventory backend in src/backend/main.py.

Numeric columns (NUMERIC in the schema, float in Python) are embedded as
exact rationals; timestamps are rationals measured in days, so the Python
expression datetime.now() - timedelta(days=d) becomes now - d.  Python
str.upper is embedded as a character-wise map, Python round(x, 2) as
rounding the rational 100*x to the nearest integer (the concrete values
appearing in this development are exact multiples of 1/100, where every
rounding convention agrees).  SQL tables become Lean lists, the SERIAL
id sequence an explicit counter, and an HTTP 400/404 raised inside a
transaction becomes an Except.error that discards the tentative state
(the transaction rolls back).
-/

/-- Python str.upper, character by character. -/
def upper (s : String) : String := String.mk (s.data.map Char.toUpper)

/-- Python round(x, 2): round to two decimal places. -/
def round2 (x : ℚ) : ℚ := ((round (100 * x) : ℤ) : ℚ) / 100

/-- Row of the produtos table (DDL in main.py lines 28-42).  Columns the
DDL declares NOT NULL or with a numeric default are plain values, the
nullable text columns are options. -/
structure Produto where
  id : ℕ
  codigo : Option String
  ean : Option String
  descricao : String
  ncm : Option String
  unidade : String
  preco_medio : ℚ
  estoque_atual : ℚ
  consumo_medio_dia : ℚ
  lead_time_dias : ℤ
  fator_seguranca : ℚ

/-- Row of the movimentos table (DDL in main.py lines 44-53). -/
structure Movimento where
  produto_id : ℕ
  tipo : String
  quantidade : ℚ
  preco_unit : ℚ
  origem : Option String
  documento : Option String
  data_mov : ℚ

/-- Database state: the two tables plus the SERIAL id sequence of produtos. -/
structure DB where
  produtos : List Produto
  movimentos : List Movimento
  next_id : ℕ

/-- Core of atualizar_preco_medio_e_estoque (main.py lines 91-100): from the
current stock and average price and one movement, the new pair
(novo_estoque, novo_preco).  Any tipo that uppercases to neither ENTRADA
nor SAIDA falls into the AJUSTE branch. -/
def valuationStep (estoque_atual preco_medio : ℚ) (tipo : String)
    (quantidade preco_unit : ℚ) : ℚ × ℚ :=
  if upper tipo = "ENTRADA" then
    let total_valor := estoque_atual * preco_medio + quantidade * preco_unit
    let novo_estoque := estoque_atual + quantidade
    (novo_estoque,
      if novo_estoque > 0 then total_valor / novo_estoque else preco_medio)
  else if upper tipo = "SAIDA" then
    (max 0 (estoque_atual - quantidade), preco_medio)
  else
    (max 0 (estoque_atual + quantidade), preco_medio)

/-- SELECT ... FROM produtos WHERE id=:id (first row, id is unique). -/
def findProduto (db : DB) (produto_id : ℕ) : Option Produto :=
  db.produtos.find? (fun p => p.id == produto_id)

/-- UPDATE produtos SET ... WHERE id=:id, applied as a pointwise map. -/
def updateProduto (db : DB) (produto_id : ℕ) (f : Produto → Produto) : DB :=
  { db with produtos := db.produtos.map (fun p => if p.id = produto_id then f p else p) }

/-- Function atualizar_preco_medio_e_estoque (main.py lines 83-105): look the
product up (404 if absent), apply the valuation rule, write the new stock
and price back. -/
def atualizar_preco_medio_e_estoque (db : DB) (produto_id : ℕ) (tipo : String)
    (quantidade preco_unit : ℚ) : Except String DB :=
  match findProduto db produto_id with
  | none => Except.error "Produto nao encontrado"
  | some row =>
      let v := valuationStep row.estoque_atual row.preco_medio tipo quantidade preco_unit
      Except.ok (updateProduto db produto_id
        (fun p => { p with estoque_atual := v.1, preco_medio := v.2 }))

/-- SQL aggregate SELECT COALESCE(SUM(quantidade),0) FROM movimentos WHERE
produto_id=:id AND tipo=SAIDA AND data_mov>=:since, as a guarded sum. -/
def sumSaida (movimentos : List Movimento) (produto_id : ℕ) (since : ℚ) : ℚ :=
  (movimentos.map (fun m =>
    if m.produto_id = produto_id ∧ m.tipo = "SAIDA" ∧ since ≤ m.data_mov
    then m.quantidade else 0)).sum

/-- Function calcular_consumo_medio (main.py lines 107-117): trailing-window
average daily outbound quantity, written to consumo_medio_dia and also
returned. -/
def calcular_consumo_medio (db : DB) (produto_id : ℕ) (now : ℚ) (dias : ℤ) :
    DB × ℚ :=
  let since := now - (dias : ℚ)
  let q := sumSaida db.movimentos produto_id since
  let consumo := if dias > 0 then q / (dias : ℚ) else 0
  (updateProduto db produto_id (fun p => { p with consumo_medio_dia := consumo }),
   consumo)

/-- Function calcular_min_max_sugestao (main.py lines 119-135), on the four
fields it reads.  The Python idiom value-or-default yields the default
exactly when the stored value is zero (falsy), so a stored zero
lead_time_dias becomes 7 and a stored zero fator_seguranca becomes 1.2,
while consumo_medio_dia keeps its value (its default is 0 itself). -/
def calcular_min_max_sugestao (estoque_atual consumo_medio_dia : ℚ)
    (lead_time_dias : ℤ) (fator_seguranca : ℚ) : ℚ × ℚ × ℚ :=
  let consumo : ℚ := if consumo_medio_dia = 0 then 0 else consumo_medio_dia
  let lead : ℤ := if lead_time_dias = 0 then 7 else lead_time_dias
  let fs : ℚ := if fator_seguranca = 0 then 1.2 else fator_seguranca
  let estoque_min := consumo * (lead : ℚ)
  let estoque_max := estoque_min * fs
  let sugerido := max 0 (estoque_max - estoque_atual)
  (round2 estoque_min, round2 estoque_max, round2 sugerido)

/-- Item of the curva_abc working list (main.py lines 157-162). -/
structure AbcItem where
  id : ℕ
  descricao : String
  valor : ℚ

/-- Output row of curva_abc (main.py line 170). -/
structure AbcOut where
  id : ℕ
  descricao : String
  valor : ℚ
  perc : ℚ
  acumulado : ℚ
  classe : String

/-- Stable insertion into a list sorted descending by valor: the new item
goes before the first element it is greater than or equal to. -/
def insertByValor (x : AbcItem) : List AbcItem → List AbcItem
  | [] => [x]
  | y :: ys => if y.valor ≤ x.valor then x :: y :: ys else y :: insertByValor x ys

/-- Python itens.sort with key valor and reverse=True is a stable descending
sort; embedded as stable insertion sort, which computes the same (unique)
stable descending permutation. -/
def sortByValorDesc : List AbcItem → List AbcItem
  | [] => []
  | x :: xs => insertByValor x (sortByValorDesc xs)

/-- Accumulation loop of curva_abc (main.py lines 164-170): percentage of
total value, running cumulative percentage, and class from the cumulative
value of the item itself. -/
def abcLoop (total_valor : ℚ) (acumulado : ℚ) : List AbcItem → List AbcOut
  | [] => []
  | it :: rest =>
      let perc : ℚ := if total_valor > 0 then it.valor / total_valor * 100 else 0
      let acum : ℚ := acumulado + perc
      let classe : String := if acum ≤ 80 then "A" else if acum ≤ 95 then "B" else "C"
      AbcOut.mk it.id it.descricao it.valor (round2 perc) (round2 acum) classe
        :: abcLoop total_valor acum rest

/-- Function curva_abc (main.py lines 149-171): per product, the in-window
outbound quantity times the current average price, then the sorted
accumulation loop. -/
def curva_abc (db : DB) (now : ℚ) (dias : ℤ) : List AbcOut :=
  let since := now - (dias : ℚ)
  let itens := db.produtos.map (fun p =>
    AbcItem.mk p.id p.descricao (sumSaida db.movimentos p.id since * p.preco_medio))
  let total_valor := (itens.map AbcItem.valor).sum
  abcLoop total_valor 0 (sortByValorDesc itens)

/-- Movement as fed to the valuation engine: kind, quantity, unit price. -/
structure Mov where
  tipo : String
  quantidade : ℚ
  preco_unit : ℚ

/-- Valuation engine folded over a list of movements, starting from a
(stock, average price) pair. -/
def applyMovs (s : ℚ × ℚ) (ms : List Mov) : ℚ × ℚ :=
  ms.foldl (fun st m => valuationStep st.1 st.2 m.tipo m.quantidade m.preco_unit) s

/-- Request body MovimentoIn (main.py lines 72-79).  Optional fields carry
their pydantic defaults through Option. -/
structure MovimentoIn where
  produto_id : ℕ
  tipo : String
  quantidade : ℚ
  preco_unit : Option ℚ
  origem : Option String
  documento : Option String
  data_mov : Option ℚ

/-- Endpoint lancar_movimento (main.py lines 191-202): reject an invalid
tipo with 400 before any write; otherwise insert the movement, run the
valuation engine (404 rolls everything back), refresh the consumption
rate over the default 30-day window. -/
def lancar_movimento (db : DB) (now : ℚ) (m : MovimentoIn) : Except String DB :=
  if upper m.tipo ∈ (["ENTRADA", "SAIDA", "AJUSTE"] : List String) then
    let db1 : DB := { db with movimentos := db.movimentos ++
      [Movimento.mk m.produto_id (upper m.tipo) m.quantidade (m.preco_unit.getD 0)
        m.origem m.documento (m.data_mov.getD now)] }
    match atualizar_preco_medio_e_estoque db1 m.produto_id m.tipo m.quantidade
        (m.preco_unit.getD 0) with
    | Except.error e => Except.error e
    | Except.ok db2 => Except.ok (calcular_consumo_medio db2 m.produto_id now 30).1
  else
    Except.error "Tipo invalido"

/-- Spreadsheet row as extracted by pandas: every cell may be missing. -/
structure ExcelRow where
  codigo : Option String
  descricao : Option String
  ean : Option String
  ncm : Option String
  unidade : Option String
  tipo : Option String
  quantidade : Option ℚ
  preco_unit : Option ℚ

/-- Python value-or-default on a string cell: a missing or empty string is
falsy and yields the default. -/
def orDefault (o : Option String) (d : String) : String :=
  match o with
  | none => d
  | some s => if s = "" then d else s

/-- Python str(cell or None): a missing or empty cell becomes the literal
string None (a quirk of the source, preserved). -/
def str_or_none (o : Option String) : String :=
  match o with
  | none => "None"
  | some s => if s = "" then "None" else s

/-- Python (str(cell or "").strip() or None): trim, empty becomes absent. -/
def normCodigo (o : Option String) : Option String :=
  match o with
  | none => none
  | some s => if s.trim = "" then none else some s.trim

/-- One iteration of the importar_excel loop (main.py lines 275-300):
normalize the cells, skip the row when the tipo is unrecognized,
otherwise upsert the product by codigo, insert the movement, run the
valuation engine and refresh consumption.  Returns the new state and how
many rows were inserted (0 or 1). -/
def importar_excel_row (now : ℚ) (fname : String) (db : DB) (r : ExcelRow) :
    Except String (DB × ℕ) :=
  let codigo := normCodigo r.codigo
  let desc := orDefault r.descricao "SEM DESCRICAO"
  let ean := str_or_none r.ean
  let ncm := str_or_none r.ncm
  let unidade := orDefault r.unidade "UN"
  let tipo := upper (orDefault r.tipo "ENTRADA")
  let quantidade := r.quantidade.getD 0
  let preco_unit := r.preco_unit.getD 0
  if tipo ∈ (["ENTRADA", "SAIDA", "AJUSTE"] : List String) then
    let found : Option ℕ :=
      match codigo with
      | some c => (db.produtos.find? (fun p => p.codigo == some c)).map Produto.id
      | none => none
    let upserted : DB × ℕ :=
      match found with
      | some pid =>
          (updateProduto db pid (fun p =>
            { p with ean := some ean, descricao := desc, ncm := some ncm,
                     unidade := unidade }), pid)
      | none =>
          ({ db with
              produtos := db.produtos ++
                [Produto.mk db.next_id codigo (some ean) desc (some ncm) unidade
                  0 0 0 7 1.2],
              next_id := db.next_id + 1 }, db.next_id)
    let db1 := upserted.1
    let pid := upserted.2
    let db2 : DB := { db1 with movimentos := db1.movimentos ++
      [Movimento.mk pid tipo quantidade preco_unit (some "EXCEL") (some fname) now] }
    match atualizar_preco_medio_e_estoque db2 pid tipo quantidade preco_unit with
    | Except.error e => Except.error e
    | Except.ok db3 => Except.ok ((calcular_consumo_medio db3 pid now 30).1, 1)
  else
    Except.ok (db, 0)

/-- Endpoint importar_excel (main.py lines 255-302), the per-row loop: rows
are processed in order, a skipped row contributes nothing, an engine
error aborts the whole request. -/
def importar_excel (now : ℚ) (fname : String) : DB → List ExcelRow →
    Except String (DB × ℕ)
  | db, [] => Except.ok (db, 0)
  | db, r :: rest =>
      match importar_excel_row now fname db r with
      | Except.error e => Except.error e
      | Except.ok (db1, k) =>
          match importar_excel now fname db1 rest with
          | Except.error e => Except.error e
          | Except.ok (db2, n) => Except.ok (db2, k + n)

/-
Helper lemmas shared by several developments below.
-/

theorem upper_ENTRADA : upper "ENTRADA" = "ENTRADA" := rfl

theorem upper_SAIDA : upper "SAIDA" = "SAIDA" := rfl

theorem upper_AJUSTE : upper "AJUSTE" = "AJUSTE" := rfl

theorem round2_zero : round2 0 = 0 := by simp [round2]

theorem valuationStep_entrada (e p q u : ℚ) :
    valuationStep e p "ENTRADA" q u =
      (e + q, if 0 < e + q then (e * p + q * u) / (e + q) else p) := by
  simp [valuationStep, upper_ENTRADA]

theorem valuationStep_saida (e p q u : ℚ) :
    valuationStep e p "SAIDA" q u = (max 0 (e - q), p) := by
  simp [valuationStep, upper_SAIDA, (by decide : ("SAIDA" : String) ≠ "ENTRADA")]

theorem valuationStep_ajuste (e p q u : ℚ) :
    valuationStep e p "AJUSTE" q u = (max 0 (e + q), p) := by
  simp [valuationStep, upper_AJUSTE, (by decide : ("AJUSTE" : String) ≠ "ENTRADA"),
    (by decide : ("AJUSTE" : String) ≠ "SAIDA")]

theorem valuationStep_other (e p : ℚ) (tipo : String) (q u : ℚ)
    (h1 : upper tipo ≠ "ENTRADA") (h2 : upper tipo ≠ "SAIDA") :
    valuationStep e p tipo q u = (max 0 (e + q), p) := by
  simp [valuationStep, h1, h2]

theorem valuationStep_fst_nonneg (e p : ℚ) (tipo : String) (q u : ℚ)
    (he : 0 ≤ e) (hq : upper tipo = "ENTRADA" → 0 ≤ q) :
    0 ≤ (valuationStep e p tipo q u).1 := by
  by_cases hE : upper tipo = "ENTRADA"
  · simp only [valuationStep, hE, if_pos rfl]
    exact add_nonneg he (hq hE)
  · by_cases hS : upper tipo = "SAIDA" <;>
      simp [valuationStep, hE, hS, le_max_left]

theorem applyMovs_nil (s : ℚ × ℚ) : applyMovs s [] = s := rfl

theorem applyMovs_cons (s : ℚ × ℚ) (m : Mov) (ms : List Mov) :
    applyMovs s (m :: ms) =
      applyMovs (valuationStep s.1 s.2 m.tipo m.quantidade m.preco_unit) ms := rfl

theorem applyMovs_fst_nonneg (ms : List Mov) :
    ∀ s : ℚ × ℚ, 0 ≤ s.1 →
      (∀ m ∈ ms, upper m.tipo = "ENTRADA" → 0 ≤ m.quantidade) →
      0 ≤ (applyMovs s ms).1 := by
  induction ms with
  | nil => intro s hs _; simpa [applyMovs_nil] using hs
  | cons m t ih =>
      intro s hs h
      rw [applyMovs_cons]
      exact ih _ (valuationStep_fst_nonneg _ _ _ _ _ hs (h m (List.mem_cons_self m t)))
        (fun x hx => h x (List.mem_cons_of_mem m hx))

theorem entradas_invariant (l : List (ℚ × ℚ)) :
    ∀ s : ℚ × ℚ, 0 ≤ s.1 → (∀ qp ∈ l, 0 ≤ qp.1) →
      (applyMovs s (l.map (fun qp => Mov.mk "ENTRADA" qp.1 qp.2))).1
          = s.1 + (l.map Prod.fst).sum ∧
      (applyMovs s (l.map (fun qp => Mov.mk "ENTRADA" qp.1 qp.2))).1 *
          (applyMovs s (l.map (fun qp => Mov.mk "ENTRADA" qp.1 qp.2))).2
          = s.1 * s.2 + (l.map (fun qp => qp.1 * qp.2)).sum := by
  induction l with
  | nil => intro s hs _; simp [applyMovs_nil]
  | cons qp t ih =>
      intro s hs h
      have hq : 0 ≤ qp.1 := h qp (List.mem_cons_self qp t)
      have hstep : valuationStep s.1 s.2 "ENTRADA" qp.1 qp.2 =
          (s.1 + qp.1, if 0 < s.1 + qp.1
            then (s.1 * s.2 + qp.1 * qp.2) / (s.1 + qp.1) else s.2) :=
        valuationStep_entrada _ _ _ _
      have hs1 : (0 : ℚ) ≤ s.1 + qp.1 := add_nonneg hs hq
      have hprod : (valuationStep s.1 s.2 "ENTRADA" qp.1 qp.2).1 *
          (valuationStep s.1 s.2 "ENTRADA" qp.1 qp.2).2
          = s.1 * s.2 + qp.1 * qp.2 := by
        rw [hstep]
        by_cases hpos : 0 < s.1 + qp.1
        · simp only [hpos, if_pos]
          field_simp
        · have h0 : s.1 + qp.1 = 0 := le_antisymm (not_lt.mp hpos) hs1
          have hsz : s.1 = 0 := by linarith [add_nonneg hs hq, hq]
          have hqz : qp.1 = 0 := by linarith
          simp [hpos, h0, hsz, hqz]
      obtain ⟨ih1, ih2⟩ := ih (valuationStep s.1 s.2 "ENTRADA" qp.1 qp.2)
        (by rw [hstep]; exact hs1) (fun x hx => h x (List.mem_cons_of_mem qp hx))
      constructor
      · rw [List.map_cons, applyMovs_cons, ih1, hstep]
        simp [add_assoc]
      · rw [List.map_cons, applyMovs_cons, ih2, hprod, List.map_cons, List.sum_cons]
        ring

/-- C1: on an ENTRADA movement the valuation engine sets the new stock to
stock + qty and, when the new stock is positive, the new average cost to
the moving weighted average (stock * avg_cost + qty * unit_price) divided
by the new stock, leaving the cost unchanged otherwise; a fresh product
after ENTRADA qty 10 price 2 has stock 10 and cost 2, and after a further
ENTRADA qty 10 price 4 has stock 20 and cost 3. -/
theorem C1_entrada_weighted_average (estoque preco quantidade preco_unit : ℚ) :
    (valuationStep estoque preco "ENTRADA" quantidade preco_unit).1
        = estoque + quantidade ∧
    (0 < estoque + quantidade →
      (valuationStep estoque preco "ENTRADA" quantidade preco_unit).2 =
        (estoque * preco + quantidade * preco_unit) / (estoque + quantidade)) ∧
    (¬ 0 < estoque + quantidade →
      (valuationStep estoque preco "ENTRADA" quantidade preco_unit).2 = preco) ∧
    applyMovs (0, 0) [Mov.mk "ENTRADA" 10 2] = (10, 2) ∧
    applyMovs (0, 0) [Mov.mk "ENTRADA" 10 2, Mov.mk "ENTRADA" 10 4] = (20, 3) := by
  refine ⟨by simp [valuationStep_entrada], ?_, ?_, ?_, ?_⟩
  · intro h; simp [valuationStep_entrada, h]
  · intro h; simp [valuationStep_entrada, h]
  · norm_num [applyMovs_cons, applyMovs_nil, valuationStep_entrada]
  · norm_num [applyMovs_cons, applyMovs_nil, valuationStep_entrada]

/-- C1 witness: the weighted-average branch instantiated at stock 1, cost 2,
quantity 3, unit price 4. -/
theorem C1_entrada_weighted_average_witness :
    (0 : ℚ) < 1 + 3 ∧
    (valuationStep 1 2 "ENTRADA" 3 4).2 = (1 * 2 + 3 * 4) / (1 + 3) :=
  ⟨by norm_num, (C1_entrada_weighted_average 1 2 3 4).2.1 (by norm_num)⟩

/-- C2: a SAIDA movement takes the stock to max 0 (stock - qty) and an
AJUSTE movement to max 0 (stock + qty); neither changes the average
cost. -/
theorem C2_saida_ajuste_clamp_cost_invariant (estoque preco quantidade preco_unit : ℚ) :
    valuationStep estoque preco "SAIDA" quantidade preco_unit
        = (max 0 (estoque - quantidade), preco) ∧
    valuationStep estoque preco "AJUSTE" quantidade preco_unit
        = (max 0 (estoque + quantidade), preco) :=
  ⟨valuationStep_saida _ _ _ _, valuationStep_ajuste _ _ _ _⟩

/-- C3 counterexample: an ENTRADA movement with the arbitrary quantity -1,
applied from stock 0, leaves the stock at -1, which is negative; the
inbound branch does not clamp, so with arbitrary quantities the
non-negativity claim fails. -/
theorem C3_nonneg_counterexample :
    ¬ (0 ≤ (applyMovs (0, 0) [Mov.mk "ENTRADA" (-1) 0]).1) := by
  norm_num [applyMovs_cons, applyMovs_nil, valuationStep_entrada]

/-- C3 amended: starting from any non-negative stock, after any prefix of
any finite sequence of movements in which every movement whose kind
uppercases to ENTRADA has non-negative quantity (as the spec requires of
inbound movements), the stock is never negative; SAIDA and AJUSTE
quantities stay arbitrary. -/
theorem C3_stock_nonneg_amended (s : ℚ × ℚ) (hs : 0 ≤ s.1) (ms : List Mov)
    (h : ∀ m ∈ ms, upper m.tipo = "ENTRADA" → 0 ≤ m.quantidade) :
    ∀ n : ℕ, 0 ≤ (applyMovs s (ms.take n)).1 := fun n =>
  applyMovs_fst_nonneg (ms.take n) s hs
    (fun m hm => h m (List.take_subset n ms hm))

/-- C3 witness: stock 5, one SAIDA of quantity 100, prefix of length 1; the
resulting stock is still non-negative (it clamps to 0). -/
theorem C3_stock_nonneg_amended_witness :
    0 ≤ ((5 : ℚ), (3 : ℚ)).1 ∧
    0 ≤ (applyMovs ((5 : ℚ), (3 : ℚ)) ([Mov.mk "SAIDA" 100 0].take 1)).1 := by
  refine ⟨by norm_num, C3_stock_nonneg_amended (5, 3) (by norm_num) _ ?_ 1⟩
  intro m hm hE
  rw [List.mem_singleton.mp hm] at hE
  exact absurd hE (by decide)

/-- C4: starting from stock 0 and cost 0, after any sequence of ENTRADA
movements whose quantities are non-negative and sum to a positive total,
the average cost equals the total purchase value divided by the total
quantity. -/
theorem C4_weighted_average_invariant (l : List (ℚ × ℚ))
    (hq : ∀ qp ∈ l, 0 ≤ qp.1) (hpos : 0 < (l.map Prod.fst).sum) :
    (applyMovs (0, 0) (l.map (fun qp => Mov.mk "ENTRADA" qp.1 qp.2))).2
      = (l.map (fun qp => qp.1 * qp.2)).sum / (l.map Prod.fst).sum := by
  obtain ⟨h1, h2⟩ := entradas_invariant l (0, 0) le_rfl hq
  simp only [zero_add, zero_mul] at h1 h2
  have hne : (l.map Prod.fst).sum ≠ 0 := ne_of_gt hpos
  rw [← h2, h1, mul_div_cancel_left₀ _ hne]

/-- C4 witness: the two inbound movements of scenario 1, qty 10 at price 2
then qty 10 at price 4, give average cost (10*2 + 10*4) / 20 = 3. -/
theorem C4_weighted_average_invariant_witness :
    (∀ qp ∈ [((10 : ℚ), (2 : ℚ)), (10, 4)], 0 ≤ qp.1) ∧
    0 < (([((10 : ℚ), (2 : ℚ)), (10, 4)]).map Prod.fst).sum ∧
    (applyMovs (0, 0) (([((10 : ℚ), (2 : ℚ)), (10, 4)]).map
        (fun qp => Mov.mk "ENTRADA" qp.1 qp.2))).2
      = (([((10 : ℚ), (2 : ℚ)), (10, 4)]).map (fun qp => qp.1 * qp.2)).sum /
        (([((10 : ℚ), (2 : ℚ)), (10, 4)]).map Prod.fst).sum := by
  have h : ∀ qp ∈ [((10 : ℚ), (2 : ℚ)), (10, 4)], 0 ≤ qp.1 := by
    intro qp hqp
    fin_cases hqp <;> norm_num
  exact ⟨h, by norm_num, C4_weighted_average_invariant _ h (by norm_num)⟩

theorem insertByValor_length (x : AbcItem) (l : List AbcItem) :
    (insertByValor x l).length = l.length + 1 := by
  induction l with
  | nil => rfl
  | cons y ys ih =>
      rw [insertByValor]
      split
      · rfl
      · simp [ih]

theorem sortByValorDesc_length (l : List AbcItem) :
    (sortByValorDesc l).length = l.length := by
  induction l with
  | nil => rfl
  | cons x xs ih => rw [sortByValorDesc, insertByValor_length, ih, List.length_cons]

theorem abcLoop_length (total : ℚ) :
    ∀ (l : List AbcItem) (acum : ℚ), (abcLoop total acum l).length = l.length := by
  intro l
  induction l with
  | nil => intro acum; rfl
  | cons it rest ih => intro acum; simp [abcLoop, ih]

theorem abcLoop_get_classe (total : ℚ) :
    ∀ (l : List AbcItem) (acum : ℚ) (i : ℕ) (h : i < (abcLoop total acum l).length),
      ((abcLoop total acum l).get ⟨i, h⟩).classe =
        (if acum + ((l.take (i + 1)).map (fun it =>
              if total > 0 then it.valor / total * 100 else 0)).sum ≤ 80 then "A"
         else if acum + ((l.take (i + 1)).map (fun it =>
              if total > 0 then it.valor / total * 100 else 0)).sum ≤ 95 then "B"
         else "C") := by
  intro l
  induction l with
  | nil => intro acum i h; simp [abcLoop] at h
  | cons it rest ih =>
      intro acum i h
      match i with
      | 0 => simp [abcLoop]
      | Nat.succ j =>
          have h' : j < (abcLoop total
              (acum + if total > 0 then it.valor / total * 100 else 0) rest).length := by
            have := h
            simp only [abcLoop, List.length_cons, Nat.succ_lt_succ_iff] at this
            simpa [abcLoop_length] using this
          have hget : ((abcLoop total acum (it :: rest)).get ⟨j + 1, h⟩)
              = ((abcLoop total
                  (acum + if total > 0 then it.valor / total * 100 else 0) rest).get
                    ⟨j, h'⟩) := by
            simp [abcLoop]
          rw [hget, ih]
          simp only [List.take_succ_cons, List.map_cons, List.sum_cons]
          rw [add_assoc]

/-- Two-product database of scenario 5: product 1 with 800 of in-window
outbound value and product 2 with 200, both at average price 1. -/
def abcDemoDB : DB :=
  DB.mk
    [Produto.mk 1 none none "A" none "UN" 1 0 0 7 1.2,
     Produto.mk 2 none none "B" none "UN" 1 0 0 7 1.2]
    [Movimento.mk 1 "SAIDA" 800 0 none none 0,
     Movimento.mk 2 "SAIDA" 200 0 none none 0]
    3

theorem curva_abc_demo :
    curva_abc abcDemoDB 0 90 =
      [AbcOut.mk 1 "A" 800 80 80 "A", AbcOut.mk 2 "B" 200 20 100 "C"] := by
  norm_num [curva_abc, abcDemoDB, sumSaida, sortByValorDesc, insertByValor,
    abcLoop, round2, round_eq]

/-- C5 counterexample: in the scenario with values 800 and 200 the code
assigns the second product class C, not class B: its own cumulative
percentage is 100, which exceeds the 95 boundary, because the class of
every item is computed from the cumulative value including the item
itself. -/
theorem C5_abc_scenario_counterexample :
    (curva_abc abcDemoDB 0 90).map AbcOut.classe ≠ ["A", "B"] := by
  rw [curva_abc_demo]
  decide

/-- C5 amended: after sorting descending by value and accumulating, each
item is assigned class A while its own cumulative percentage is at most
80, class B while at most 95, else class C; in the two-product scenario
with values 800 and 200, the first product has perc 80, cumulative 80 and
class A, while the second has perc 20, cumulative 100 and class C (not B,
since its cumulative exceeds 95). -/
theorem C5_abc_classification_amended :
    (∀ (total acum : ℚ) (l : List AbcItem) (i : ℕ)
        (h : i < (abcLoop total acum l).length),
      ((abcLoop total acum l).get ⟨i, h⟩).classe =
        (if acum + ((l.take (i + 1)).map (fun it =>
              if total > 0 then it.valor / total * 100 else 0)).sum ≤ 80 then "A"
         else if acum + ((l.take (i + 1)).map (fun it =>
              if total > 0 then it.valor / total * 100 else 0)).sum ≤ 95 then "B"
         else "C")) ∧
    curva_abc abcDemoDB 0 90 =
      [AbcOut.mk 1 "A" 800 80 80 "A", AbcOut.mk 2 "B" 200 20 100 "C"] :=
  ⟨fun total l acum i h => abcLoop_get_classe total acum l i h, curva_abc_demo⟩

/-- C5 witness: the classification rule applied to the sorted scenario list
at index 1, where the cumulative percentage is 100 and the class is C. -/
theorem C5_abc_classification_amended_witness :
    ((abcLoop 1000 0 [AbcItem.mk 1 "A" 800, AbcItem.mk 2 "B" 200]).get
        ⟨1, by simp [abcLoop_length]⟩).classe = "C" := by
  have h := C5_abc_classification_amended.1 1000 0
    [AbcItem.mk 1 "A" 800, AbcItem.mk 2 "B" 200] 1 (by simp [abcLoop_length])
  rw [h]
  norm_num

theorem abcLoop_zero_total (l : List AbcItem) :
    abcLoop 0 0 l = l.map (fun it => AbcOut.mk it.id it.descricao it.valor 0 0 "A") := by
  induction l with
  | nil => rfl
  | cons it rest ih => norm_num [abcLoop, ih, round2_zero]

theorem curva_abc_as_abcLoop (db : DB) (now : ℚ) (dias : ℤ) :
    curva_abc db now dias =
      abcLoop ((db.produtos.map (fun p =>
          sumSaida db.movimentos p.id (now - (dias : ℚ)) * p.preco_medio)).sum) 0
        (sortByValorDesc (db.produtos.map (fun p =>
          AbcItem.mk p.id p.descricao
            (sumSaida db.movimentos p.id (now - (dias : ℚ)) * p.preco_medio)))) := by
  simp [curva_abc, List.map_map, Function.comp_def]

/-- C10: when the total in-window outbound value across all products is 0,
the ABC query still returns one row per product, every row with perc 0,
acumulado 0 and class A. -/
theorem C10_abc_zero_total (db : DB) (now : ℚ) (dias : ℤ)
    (h : (db.produtos.map (fun p =>
        sumSaida db.movimentos p.id (now - (dias : ℚ)) * p.preco_medio)).sum = 0) :
    (curva_abc db now dias).length = db.produtos.length ∧
    ∀ o ∈ curva_abc db now dias, o.perc = 0 ∧ o.acumulado = 0 ∧ o.classe = "A" := by
  rw [curva_abc_as_abcLoop, h, abcLoop_zero_total]
  constructor
  · simp [sortByValorDesc_length]
  · intro o ho
    obtain ⟨it, _, rfl⟩ := List.mem_map.mp ho
    exact ⟨rfl, rfl, rfl⟩

/-- Single-product database with no movements, used as the C10 witness. -/
def c10db : DB :=
  DB.mk [Produto.mk 1 none none "X" none "UN" 3 0 0 7 1.2] [] 2

/-- C10 witness: one product, no movements in the window, total value 0; the
ABC output has one row, with perc 0, acumulado 0 and class A. -/
theorem C10_abc_zero_total_witness :
    ((c10db.produtos.map (fun p =>
        sumSaida c10db.movimentos p.id ((0 : ℚ) - ((30 : ℤ) : ℚ)) * p.preco_medio)).sum
      = 0) ∧
    (curva_abc c10db 0 30).length = c10db.produtos.length ∧
    ∀ o ∈ curva_abc c10db 0 30, o.perc = 0 ∧ o.acumulado = 0 ∧ o.classe = "A" := by
  have h : (c10db.produtos.map (fun p =>
      sumSaida c10db.movimentos p.id ((0 : ℚ) - ((30 : ℤ) : ℚ)) * p.preco_medio)).sum
        = 0 := by
    norm_num [c10db, sumSaida]
  exact ⟨h, C10_abc_zero_total c10db 0 30 h⟩

/-- C6 counterexample: a product with stored consumption rate 1, stored
lead time 0 and stored safety factor 1 gets estoque_min = 7, not the 0
the claim predicts from the stored values as-is: the value-or-default
idiom substitutes the creation default 7 for a stored zero lead time at
query time. -/
theorem C6_query_defaults_counterexample :
    (calcular_min_max_sugestao 0 1 0 1).1 ≠ round2 (1 * ((0 : ℤ) : ℚ)) := by
  norm_num [calcular_min_max_sugestao, round2, round_eq]

/-- C6 amended: suggest returns estoque_min = consumption_rate * lead_time,
estoque_max = estoque_min * safety_factor and sugestao_compra =
max 0 (estoque_max - stock), each rounded to 2 decimal places, computed
from the stored values whenever the stored lead time and safety factor
are nonzero; a stored zero consumption rate stays zero, but a stored
zero lead time is replaced by 7 and a stored zero safety factor by 1.2
at query time; scenario 4 holds: rate 2, lead 7, factor 1.2, stock 5
give 14, 16.8 and 11.8. -/
theorem C6_suggestion_amended :
    (∀ (estoque consumo : ℚ) (lead : ℤ) (fs : ℚ), lead ≠ 0 → fs ≠ 0 →
      calcular_min_max_sugestao estoque consumo lead fs =
        (round2 (consumo * (lead : ℚ)), round2 (consumo * (lead : ℚ) * fs),
         round2 (max 0 (consumo * (lead : ℚ) * fs - estoque)))) ∧
    (∀ (estoque consumo fs : ℚ), fs ≠ 0 →
      calcular_min_max_sugestao estoque consumo 0 fs =
        (round2 (consumo * 7), round2 (consumo * 7 * fs),
         round2 (max 0 (consumo * 7 * fs - estoque)))) ∧
    (∀ (estoque consumo : ℚ) (lead : ℤ), lead ≠ 0 →
      calcular_min_max_sugestao estoque consumo lead 0 =
        (round2 (consumo * (lead : ℚ)), round2 (consumo * (lead : ℚ) * 1.2),
         round2 (max 0 (consumo * (lead : ℚ) * 1.2 - estoque)))) ∧
    calcular_min_max_sugestao 5 2 7 1.2 = (14, 84/5, 59/5) := by
  refine ⟨?_, ?_, ?_, ?_⟩
  · intro estoque consumo lead fs hl hf
    by_cases hc : consumo = 0 <;> simp [calcular_min_max_sugestao, hc, hl, hf]
  · intro estoque consumo fs hf
    by_cases hc : consumo = 0 <;> simp [calcular_min_max_sugestao, hc, hf]
  · intro estoque consumo lead hl
    by_cases hc : consumo = 0 <;> simp [calcular_min_max_sugestao, hc, hl]
  · norm_num [calcular_min_max_sugestao, round2, round_eq]

/-- C6 witness: stored values stock 0, rate 2, lead 7, factor 1, all
nonzero where it matters, give exactly the spec formulas. -/
theorem C6_suggestion_amended_witness :
    ((7 : ℤ) ≠ 0) ∧ ((1 : ℚ) ≠ 0) ∧
    calcular_min_max_sugestao 0 2 7 1 =
      (round2 (2 * ((7 : ℤ) : ℚ)), round2 (2 * ((7 : ℤ) : ℚ) * 1),
       round2 (max 0 (2 * ((7 : ℤ) : ℚ) * 1 - 0))) :=
  ⟨by norm_num, by norm_num,
    C6_suggestion_amended.1 0 2 7 1 (by norm_num) (by norm_num)⟩

/-- C7: the consumption refresh returns the sum of SAIDA quantities with
timestamp at or after now minus the window, divided by the window, and 0
whenever the window is not positive, and writes exactly that value into
the consumption-rate field of the product. -/
theorem C7_consumo_refresh (db : DB) (produto_id : ℕ) (now : ℚ) (dias : ℤ) :
    (0 < dias →
      (calcular_consumo_medio db produto_id now dias).2 =
        sumSaida db.movimentos produto_id (now - (dias : ℚ)) / (dias : ℚ)) ∧
    (dias ≤ 0 → (calcular_consumo_medio db produto_id now dias).2 = 0) ∧
    (∀ p ∈ (calcular_consumo_medio db produto_id now dias).1.produtos,
      p.id = produto_id →
        p.consumo_medio_dia = (calcular_consumo_medio db produto_id now dias).2) := by
  refine ⟨?_, ?_, ?_⟩
  · intro h; simp [calcular_consumo_medio, h]
  · intro h; simp [calcular_consumo_medio, not_lt.mpr h]
  · intro p hp hid
    simp only [calcular_consumo_medio, updateProduto, List.mem_map] at hp
    obtain ⟨q, _, hpq⟩ := hp
    by_cases h : q.id = produto_id
    · rw [if_pos h] at hpq
      rw [← hpq]
      simp [calcular_consumo_medio]
    · rw [if_neg h] at hpq
      exact absurd (hpq ▸ hid) h

/-- Single-product database with one outbound movement of quantity 30 at
time 0, used as the C7 witness. -/
def c7db : DB :=
  DB.mk [Produto.mk 1 none none "X" none "UN" 0 0 0 7 1.2]
    [Movimento.mk 1 "SAIDA" 30 0 none none 0] 2

/-- C7 witness: a 30-day window over one SAIDA of quantity 30 gives rate
30 / 30 = 1. -/
theorem C7_consumo_refresh_witness :
    (0 : ℤ) < 30 ∧
    (calcular_consumo_medio c7db 1 0 30).2 =
      sumSaida c7db.movimentos 1 ((0 : ℚ) - ((30 : ℤ) : ℚ)) / ((30 : ℤ) : ℚ) ∧
    (calcular_consumo_medio c7db 1 0 30).2 = 1 := by
  have h := (C7_consumo_refresh c7db 1 0 30).1 (by norm_num)
  refine ⟨by norm_num, h, ?_⟩
  rw [h]
  norm_num [c7db, sumSaida]

/-- C8: a movement whose kind does not uppercase to one of ENTRADA, SAIDA,
AJUSTE is never recorded: the movement endpoint answers 400 before any
write (the error value carries no state, modelling the rolled-back
transaction), a spreadsheet row with such a kind is skipped leaving the
state untouched and inserting nothing, and the batch result is exactly
the result of the remaining rows. -/
theorem C8_invalid_tipo_rejected (m : MovimentoIn) (r : ExcelRow)
    (h1 : upper m.tipo ∉ (["ENTRADA", "SAIDA", "AJUSTE"] : List String))
    (h2 : upper (orDefault r.tipo "ENTRADA") ∉ (["ENTRADA", "SAIDA", "AJUSTE"] : List String)) :
    (∀ (db : DB) (now : ℚ), lancar_movimento db now m = Except.error "Tipo invalido") ∧
    (∀ (now : ℚ) (fname : String) (db : DB),
      importar_excel_row now fname db r = Except.ok (db, 0)) ∧
    (∀ (now : ℚ) (fname : String) (db : DB) (rest : List ExcelRow),
      importar_excel now fname db (r :: rest) = importar_excel now fname db rest) := by
  have hrow : ∀ (now : ℚ) (fname : String) (db : DB),
      importar_excel_row now fname db r = Except.ok (db, 0) := by
    intro now fname db
    simp [importar_excel_row, h2]
  refine ⟨?_, hrow, ?_⟩
  · intro db now
    simp [lancar_movimento, h1]
  · intro now fname db rest
    rw [importar_excel, hrow]
    cases h : importar_excel now fname db rest with
    | error e => simp [h]
    | ok dbn => simp [h]

/-- Invalid movement request and invalid spreadsheet row used as the C8
witness. -/
def m8 : MovimentoIn := MovimentoIn.mk 1 "DEVOLUCAO" 5 none none none none

/-- Spreadsheet row with tipo DEVOLUCAO, scenario 6 of the spec. -/
def r8 : ExcelRow :=
  ExcelRow.mk (some "P1") (some "Produto") none none none (some "DEVOLUCAO")
    (some 5) (some 2)

/-- Empty database used as the C8 witness state. -/
def db8 : DB := DB.mk [] [] 1

/-- C8 witness: posting tipo DEVOLUCAO is rejected with the 400 message, and
importing the single DEVOLUCAO row is the same as importing no rows. -/
theorem C8_invalid_tipo_rejected_witness :
    lancar_movimento db8 0 m8 = Except.error "Tipo invalido" ∧
    importar_excel 0 "planilha.xlsx" db8 [r8] = importar_excel 0 "planilha.xlsx" db8 [] := by
  have h := C8_invalid_tipo_rejected m8 r8 (by decide) (by decide)
  exact ⟨h.1 db8 0, h.2.2 0 "planilha.xlsx" db8 []⟩

/-- C9: the valuation engine itself never rejects a movement kind: for any
tipo that uppercases to neither ENTRADA nor SAIDA it applies the AJUSTE
rule, clamped stock plus quantity with the average cost unchanged, and
the only error it can return is product-not-found. -/
theorem C9_engine_accepts_any_kind (db : DB) (produto_id : ℕ) (tipo : String)
    (quantidade preco_unit : ℚ)
    (h1 : upper tipo ≠ "ENTRADA") (h2 : upper tipo ≠ "SAIDA") :
    (∀ row, findProduto db produto_id = some row →
      atualizar_preco_medio_e_estoque db produto_id tipo quantidade preco_unit =
        Except.ok (updateProduto db produto_id (fun p =>
          { p with estoque_atual := max 0 (row.estoque_atual + quantidade),
                   preco_medio := row.preco_medio }))) ∧
    (findProduto db produto_id = none →
      atualizar_preco_medio_e_estoque db produto_id tipo quantidade preco_unit =
        Except.error "Produto nao encontrado") := by
  constructor
  · intro row hrow
    simp [atualizar_preco_medio_e_estoque, hrow,
      valuationStep_other row.estoque_atual row.preco_medio tipo quantidade preco_unit h1 h2]
  · intro hnone
    simp [atualizar_preco_medio_e_estoque, hnone]

/-- Product row used by the C9 witness. -/
def prod9 : Produto := Produto.mk 1 none none "X" none "UN" 2 5 0 7 1.2

/-- One-product database used by the C9 witness. -/
def db9 : DB := DB.mk [prod9] [] 2

/-- C9 witness: a DEVOLUCAO movement of quantity -3 on the stored product
with stock 5 and cost 2 goes through the AJUSTE rule and succeeds. -/
theorem C9_engine_accepts_any_kind_witness :
    atualizar_preco_medio_e_estoque db9 1 "DEVOLUCAO" (-3) 0 =
      Except.ok (updateProduto db9 1 (fun p =>
        { p with estoque_atual := max 0 (prod9.estoque_atual + (-3)),
                 preco_medio := prod9.preco_medio })) :=
  (C9_engine_accepts_any_kind db9 1 "DEVOLUCAO" (-3) 0 (by decide) (by decide)).1
    prod9 rfl
